import Mathlib

/-!
Verification of the secret-broker core of the surfingkeys-config repository:
the Credential Gateway (`getSecret` in packages/server/src/lib/proton-pass.ts),
the Secret Route Handler (`handleGetSecret` in
packages/server/src/routes/secrets.ts), the HTTP Dispatcher (`fetch` in
packages/server/src/index.ts) and the Startup Authenticator
(`authenticateProtonPass` / `startServer` in the same file).

The embedding is shallow: the subprocess invocation of the external
credential tool is modelled as an oracle `tool : String → CliOutcome`
(one invocation per call, supplied by the environment), thrown JavaScript
values as the type `Thrown`, and `process.env.TEST_MODE === 'true'` as a
boolean argument `testMode`.
-/

namespace SKConfig

/-- A thrown JavaScript value: either an `Error` instance carrying a
message string, or any value that is not an `Error` instance. -/
inductive Thrown where
  | error (message : String)
  | nonError
deriving DecidableEq, Repr

/-- The nested `itemData` object inside the structured output of
`pass-cli item get NAME --format json`. Each field is `none` when absent
and `some s` when present with string value `s`. -/
structure ItemData where
  password : Option String
  text : Option String
deriving DecidableEq, Repr

/-- The `content` object of the structured output; its `itemData` member
may be absent. -/
structure Content where
  itemData : Option ItemData
deriving DecidableEq, Repr

/-- The `data` object of the structured output; its `content` member may
be absent. -/
structure ResultData where
  content : Option Content
deriving DecidableEq, Repr

/-- The parsed structured output of the external tool; the top-level
`data` member may be absent. -/
structure CliResult where
  data : Option ResultData
deriving DecidableEq, Repr

/-- The optional chain `result.data?.content?.itemData` from
proton-pass.ts. -/
def CliResult.itemDataChain (r : CliResult) : Option ItemData :=
  (r.data.bind fun d => d.content).bind fun c => c.itemData

/-- Outcome of awaiting one subprocess invocation plus JSON parse
(`$ ... .json()`): a parsed structured result, or a thrown value
(non-zero exit status, malformed output). -/
inductive CliOutcome where
  | ok (result : CliResult)
  | thrown (e : Thrown)
deriving DecidableEq, Repr

/-- JavaScript truthiness of an optional string field: an absent field
and the empty string are falsy, any other string is truthy. -/
def truthy : Option String → Option String
  | some s => if s = "" then none else some s
  | none => none

/-- Models `itemData.password || itemData.text || ''` with JavaScript
short-circuit semantics on string fields. -/
def extractValue (item : ItemData) : String :=
  match truthy item.password with
  | some p => p
  | none =>
    match truthy item.text with
    | some t => t
    | none => ""

/-- The fixed test-mode mapping `mockSecrets` in proton-pass.ts. -/
def mockSecrets (name : String) : Option String :=
  if name = "openrouter-api-key" then some "test-api-key-12345"
  else if name = "test-secret" then some "test-value"
  else none

/-- The Credential Gateway: `getSecret` from
packages/server/src/lib/proton-pass.ts. `testMode` models
`process.env.TEST_MODE === 'true'`; `tool name` models one invocation of
`pass-cli item get name --format json` together with its JSON parse.
`Except.error e` models the promise rejecting with thrown value `e`. -/
def getSecret (testMode : Bool) (tool : String → CliOutcome) (name : String) :
    Except Thrown String :=
  if testMode then
    -- return mockSecrets[name] || ''
    Except.ok ((mockSecrets name).getD "")
  else
    match tool name with
    | CliOutcome.thrown e => Except.error e
    | CliOutcome.ok result =>
      match result.itemDataChain with
      | none =>
        Except.error (Thrown.error
          ("Secret \x27" ++ name ++ "\x27 not found in Proton Pass"))
      | some item => Except.ok (extractValue item)

/-- Body of an HTTP response: `Response.json` of an error object,
`Response.json` of a value object, a plain text body, or the served
bundle file. -/
inductive RespBody where
  | errorJson (message : String)
  | valueJson (value : String)
  | text (s : String)
  | file (contents : String)
deriving DecidableEq, Repr

/-- An HTTP response as observed by the caller: status code and body.
Headers are not modelled; no claim mentions them. -/
structure HttpResponse where
  status : Nat
  body : RespBody
deriving DecidableEq, Repr

/-- Hexadecimal digit character, for JSON \u escapes. -/
def hexDigit (n : Nat) : Char :=
  if n < 10 then Char.ofNat (48 + n) else Char.ofNat (87 + n)

/-- Escape of one character inside a JSON string literal, as
`JSON.stringify` produces it. -/
def jsonEscapeChar (c : Char) : String :=
  if c = '"' then "\\\""
  else if c = '\\' then "\\\\"
  else if c = '\n' then "\\n"
  else if c = '\r' then "\\r"
  else if c = '\t' then "\\t"
  else if c.toNat = 8 then "\\b"
  else if c.toNat = 12 then "\\f"
  else if c.toNat < 32 then
    "\\u00" ++ String.mk [hexDigit (c.toNat / 16), hexDigit (c.toNat % 16)]
  else String.mk [c]

/-- Escape of a whole string for JSON. -/
def jsonEscape (s : String) : String :=
  String.join (s.toList.map jsonEscapeChar)

/-- A JSON string literal, as `JSON.stringify` produces it. -/
def jsonStr (s : String) : String :=
  "\"" ++ jsonEscape s ++ "\""

/-- The serialized body text, as sent over HTTP by `Response.json` or a
plain `Response`. -/
def RespBody.render : RespBody → String
  | RespBody.errorJson m => "\x7b\"error\":" ++ jsonStr m ++ "\x7d"
  | RespBody.valueJson v => "\x7b\"value\":" ++ jsonStr v ++ "\x7d"
  | RespBody.text s => s
  | RespBody.file c => c

/-- The message carried to the 500 body:
`error instanceof Error ? error.message : 'Unknown error'`. -/
def thrownMessage : Thrown → String
  | Thrown.error m => m
  | Thrown.nonError => "Unknown error"

/-- The Secret Route Handler: `handleGetSecret` from
packages/server/src/routes/secrets.ts. `name = none` models an undefined
name; `if (!name)` is true exactly when the name is undefined or the
empty string. The try/catch converts every rejection of the gateway
promise into a 500 JSON response. The `console.error` log line is a side
effect not modelled. -/
def handleGetSecret (testMode : Bool) (tool : String → CliOutcome)
    (name : Option String) : HttpResponse :=
  if name.getD "" = "" then
    ⟨400, RespBody.errorJson "Secret name is required"⟩
  else
    match getSecret testMode tool (name.getD "") with
    | Except.ok value => ⟨200, RespBody.valueJson value⟩
    | Except.error e => ⟨500, RespBody.errorJson (thrownMessage e)⟩

/-- JavaScript `String.prototype.split` with a single-character
separator, on character lists: splits at every occurrence of the
separator, keeping empty tokens. -/
def jsSplit (sep : Char) : List Char → List (List Char)
  | [] => [[]]
  | c :: rest =>
    if c = sep then [] :: jsSplit sep rest
    else
      match jsSplit sep rest with
      | [] => [[c]]
      | t :: ts => (c :: t) :: ts

/-- Models `s.split(sep).pop()`: the final separator-delimited token.
`split` never returns an empty array, so `pop` always yields a string. -/
def jsSplitPop (sep : Char) (s : String) : String :=
  String.mk ((jsSplit sep s.toList).getLastD [])

/-- JavaScript `String.prototype.startsWith`. -/
def jsStartsWith (s pre : String) : Bool :=
  pre.toList.isPrefixOf s.toList

/-- The HTTP Dispatcher: the `fetch` handler inside `serve` in
packages/server/src/index.ts. `configBytes` models the bytes of the
bundle file at the configured path; `path` models `url.pathname`. -/
def fetch (testMode : Bool) (tool : String → CliOutcome)
    (configBytes : String) (path : String) : HttpResponse :=
  if path = "/config.js" then
    ⟨200, RespBody.file configBytes⟩
  else if jsStartsWith path "/api/secrets/" then
    handleGetSecret testMode tool (some (jsSplitPop '/' path))
  else
    ⟨404, RespBody.text "Not Found"⟩

/-- Result of awaiting the `pass-cli login` subprocess. -/
inductive LoginResult where
  | ok
  | thrown (e : Thrown)
deriving DecidableEq, Repr

/-- Outcome of `authenticateProtonPass`: a logged skip notice in test
mode, a logged success, or `process.exit` with the given status code. -/
inductive AuthOutcome where
  | skipped (notice : String)
  | authenticated (notice : String)
  | exited (code : Nat)
deriving DecidableEq, Repr

/-- The Startup Authenticator: `authenticateProtonPass` from
packages/server/src/index.ts. `login` models the awaited
`pass-cli login` subprocess. -/
def authenticateProtonPass (testMode : Bool) (login : LoginResult) :
    AuthOutcome :=
  if testMode then
    AuthOutcome.skipped "Test mode: Skipping Proton Pass authentication"
  else
    match login with
    | LoginResult.ok => AuthOutcome.authenticated "Authenticated with Proton Pass"
    | LoginResult.thrown _ => AuthOutcome.exited 1

/-- Whether `startServer` reaches `serve(...)`: `process.exit` during
authentication terminates the process before the dispatcher ever
listens, so no request is served. -/
inductive ServerOutcome where
  | exited (code : Nat)
  | listening
deriving DecidableEq, Repr

/-- The startup sequencing of `startServer`: authentication runs to
completion first; only if the process did not exit does the dispatcher
begin listening. -/
def startServer (testMode : Bool) (login : LoginResult) : ServerOutcome :=
  match authenticateProtonPass testMode login with
  | AuthOutcome.exited code => ServerOutcome.exited code
  | _ => ServerOutcome.listening

/-- A tool oracle that always fails; used where test mode makes the
oracle irrelevant. -/
def dummyTool : String → CliOutcome :=
  fun _ => CliOutcome.thrown Thrown.nonError

/-- A tool oracle whose structured result has no top-level data member. -/
def noDataResult : CliResult := ⟨none⟩

/-- A tool oracle returning `noDataResult` for every name. -/
def noDataTool : String → CliOutcome :=
  fun _ => CliOutcome.ok noDataResult

/-- A CLI result whose nested itemData object is present but exposes
neither a password nor a text field. -/
def noFieldResult : CliResult := ⟨some ⟨some ⟨some ⟨none, none⟩⟩⟩⟩

/-- A tool oracle returning `noFieldResult` for every name. -/
def noFieldTool : String → CliOutcome :=
  fun _ => CliOutcome.ok noFieldResult

/-- A tool oracle that always rejects with an `Error` instance. -/
def failTool : String → CliOutcome :=
  fun _ => CliOutcome.thrown (Thrown.error "boom")

/-! Helper lemmas -/

/-- Unfolding of the handler on a present, non-empty name. -/
theorem handleGetSecret_some (testMode : Bool) (tool : String → CliOutcome)
    (n : String) (h : n ≠ "") :
    handleGetSecret testMode tool (some n) =
      match getSecret testMode tool n with
      | Except.ok value => ⟨200, RespBody.valueJson value⟩
      | Except.error e => ⟨500, RespBody.errorJson (thrownMessage e)⟩ := by
  simp [handleGetSecret, h]

/-- A split never produces the empty token list. -/
theorem jsSplit_ne_nil (sep : Char) (l : List Char) : jsSplit sep l ≠ [] := by
  cases l with
  | nil => simp [jsSplit]
  | cons c rest =>
    simp only [jsSplit]
    split
    · simp
    · split
      · simp
      · simp

/-- Splitting a list that ends with the separator appends one empty
token to the split of the front. -/
theorem jsSplit_append_sep (sep : Char) (l : List Char) :
    jsSplit sep (l ++ [sep]) = jsSplit sep l ++ [[]] := by
  induction l with
  | nil => simp [jsSplit]
  | cons c rest ih =>
    by_cases h : c = sep
    · simp [jsSplit, h, ih]
    · simp only [List.cons_append, jsSplit, if_neg h]
      cases hr : jsSplit sep rest with
      | nil => exact absurd hr (jsSplit_ne_nil sep rest)
      | cons t ts =>
        simp only [List.append_eq]
        rw [ih, hr]
        simp

/-- The final token of a path with a trailing separator is empty. -/
theorem jsSplitPop_append_sep (t : String) : jsSplitPop '/' (t ++ "/") = "" := by
  have h : (t ++ "/").toList = t.toList ++ ['/'] := String.data_append t "/"
  unfold jsSplitPop
  rw [h, jsSplit_append_sep, List.getLastD_concat]

/-- The not-found message of the gateway is never the empty string. -/
theorem notFoundMessage_ne_empty (name : String) :
    ("Secret \x27" ++ name ++ "\x27 not found in Proton Pass") ≠ "" := by
  intro h
  have hl := congrArg String.length h
  simp [String.length_append] at hl
  exact absurd hl.1.1 (by decide)

/-! Claim theorems -/

/-- C1 counterexample: in non-test mode, on a record whose content
payload (the itemData object) is present but lacks both the password
and the text field, `getSecret` does NOT fail with SecretNotFound: it
succeeds with the empty string, and the HTTP response is
200 with value "", not a 500. -/
theorem c1_counterexample :
    getSecret false noFieldTool "X" = Except.ok "" ∧
    handleGetSecret false noFieldTool (some "X") =
      ⟨200, RespBody.valueJson ""⟩ :=
  ⟨rfl, rfl⟩

/-- C1 (amended): in non-test mode, `getSecret` fails with
SecretNotFound exactly when the structured output lacks the nested
`data.content.itemData` payload, and then the 500 response carries the
descriptive, non-empty message `Secret NAME not found in Proton Pass`;
when the itemData payload is present, `getSecret` succeeds, and in
particular when it carries neither a truthy password field nor a truthy
text field the call succeeds with the empty string and the HTTP
response is 200 with value "". -/
theorem c1_amended (tool : String → CliOutcome) (name : String)
    (r : CliResult) (hname : name ≠ "") (htool : tool name = CliOutcome.ok r) :
    (r.itemDataChain = none →
      getSecret false tool name =
        Except.error (Thrown.error
          ("Secret \x27" ++ name ++ "\x27 not found in Proton Pass")) ∧
      ("Secret \x27" ++ name ++ "\x27 not found in Proton Pass") ≠ "" ∧
      handleGetSecret false tool (some name) =
        ⟨500, RespBody.errorJson
          ("Secret \x27" ++ name ++ "\x27 not found in Proton Pass")⟩) ∧
    (∀ item, r.itemDataChain = some item →
      getSecret false tool name = Except.ok (extractValue item) ∧
      (truthy item.password = none → truthy item.text = none →
        getSecret false tool name = Except.ok "" ∧
        handleGetSecret false tool (some name) =
          ⟨200, RespBody.valueJson ""⟩)) := by
  constructor
  · intro hchain
    have hg : getSecret false tool name =
        Except.error (Thrown.error
          ("Secret \x27" ++ name ++ "\x27 not found in Proton Pass")) := by
      simp [getSecret, htool, hchain]
    refine ⟨hg, notFoundMessage_ne_empty name, ?_⟩
    have h500 := handleGetSecret_some false tool name hname
    rw [hg] at h500
    exact h500
  · intro item hchain
    have hg : getSecret false tool name = Except.ok (extractValue item) := by
      simp [getSecret, htool, hchain]
    refine ⟨hg, fun hp ht => ?_⟩
    have hv : extractValue item = "" := by simp [extractValue, hp, ht]
    constructor
    · rw [hg, hv]
    · have h200 := handleGetSecret_some false tool name hname
      rw [hg, hv] at h200
      exact h200

/-- Witness for C1 (amended) at a concrete input: a record with no
top-level data member makes `getSecret` fail with the not-found
message. -/
theorem c1_amended_witness :
    ("X" : String) ≠ "" ∧ noDataTool "X" = CliOutcome.ok noDataResult ∧
    noDataResult.itemDataChain = none ∧
    getSecret false noDataTool "X" =
      Except.error (Thrown.error
        ("Secret \x27" ++ "X" ++ "\x27 not found in Proton Pass")) :=
  ⟨by decide, rfl, rfl,
    ((c1_amended noDataTool "X" noDataResult (by decide) rfl).1 rfl).1⟩

/-- C2 counterexample: the test-mode mapping is not a single designated
name: the other name `test-secret` resolves to `test-value`, which is
not the empty string. -/
theorem c2_counterexample :
    getSecret true dummyTool "test-secret" = Except.ok "test-value" ∧
    ("test-secret" : String) ≠ "openrouter-api-key" ∧
    ("test-value" : String) ≠ "" :=
  ⟨rfl, by decide, by decide⟩

/-- C2 (amended): in test mode, `getSecret` resolves every name against
a fixed two-entry mapping: `openrouter-api-key` maps to
`test-api-key-12345`, `test-secret` maps to `test-value`, and every
other name returns the empty string. -/
theorem c2_amended (tool : String → CliOutcome) (name : String) :
    getSecret true tool name =
      Except.ok (if name = "openrouter-api-key" then "test-api-key-12345"
        else if name = "test-secret" then "test-value" else "") := by
  by_cases h1 : name = "openrouter-api-key"
  · subst h1; rfl
  · by_cases h2 : name = "test-secret"
    · subst h2; rfl
    · simp [getSecret, mockSecrets, h1, h2]

/-- C3: for every non-empty name, the handler returns 200 with a value
body when the gateway succeeds, 500 with an error body carrying the
failure message when the gateway fails, and in all cases produces an
HTTP response with status 200 or 500 (every gateway failure is caught
and converted, never escaping the handler). -/
theorem c3_handler_maps_outcomes (testMode : Bool) (tool : String → CliOutcome)
    (name : String) (hname : name ≠ "") :
    (∀ v, getSecret testMode tool name = Except.ok v →
      handleGetSecret testMode tool (some name) =
        ⟨200, RespBody.valueJson v⟩) ∧
    (∀ e, getSecret testMode tool name = Except.error e →
      handleGetSecret testMode tool (some name) =
        ⟨500, RespBody.errorJson (thrownMessage e)⟩) ∧
    ((handleGetSecret testMode tool (some name)).status = 200 ∨
      (handleGetSecret testMode tool (some name)).status = 500) := by
  have he := handleGetSecret_some testMode tool name hname
  cases hg : getSecret testMode tool name with
  | ok v =>
    rw [hg] at he
    refine ⟨fun w hw => ?_, fun e hge => ?_, Or.inl ?_⟩
    · have hvw : v = w := Except.ok.inj hw
      subst hvw; simp [he]
    · exact absurd hge (by simp)
    · simp [he]
  | error e =>
    rw [hg] at he
    refine ⟨fun w hw => ?_, fun f hgf => ?_, Or.inr ?_⟩
    · exact absurd hw (by simp)
    · have hef : e = f := Except.error.inj hgf
      subst hef; simp [he]
    · simp [he]

/-- Witness for C3 at a concrete input: test mode, the name `a`. -/
theorem c3_witness :
    ("a" : String) ≠ "" ∧
    ((∀ v, getSecret true dummyTool "a" = Except.ok v →
      handleGetSecret true dummyTool (some "a") =
        ⟨200, RespBody.valueJson v⟩) ∧
    (∀ e, getSecret true dummyTool "a" = Except.error e →
      handleGetSecret true dummyTool (some "a") =
        ⟨500, RespBody.errorJson (thrownMessage e)⟩) ∧
    ((handleGetSecret true dummyTool (some "a")).status = 200 ∨
      (handleGetSecret true dummyTool (some "a")).status = 500)) :=
  ⟨by decide, c3_handler_maps_outcomes true dummyTool "a" (by decide)⟩

/-- C4: for an absent name and for the empty name, and for every test
mode and every tool oracle (so the gateway is never consulted), the
handler returns 400 with the exact body
`\x7b"error":"Secret name is required"\x7d`. -/
theorem c4_empty_name_400 (testMode : Bool) (tool : String → CliOutcome) :
    handleGetSecret testMode tool none =
      ⟨400, RespBody.errorJson "Secret name is required"⟩ ∧
    handleGetSecret testMode tool (some "") =
      ⟨400, RespBody.errorJson "Secret name is required"⟩ ∧
    (RespBody.errorJson "Secret name is required").render =
      "\x7b\"error\":\"Secret name is required\"\x7d" :=
  ⟨rfl, rfl, by decide⟩

/-- C5: every request whose path starts with `/api/secrets/` is
delegated to the handler with the final slash-delimited token of the
path as the name; when the path ends in a trailing slash the extracted
name is the empty string and the response is the 400 error. -/
theorem c5_dispatch_secret_route (testMode : Bool) (tool : String → CliOutcome)
    (configBytes path : String)
    (hpre : jsStartsWith path "/api/secrets/" = true) :
    fetch testMode tool configBytes path =
      handleGetSecret testMode tool (some (jsSplitPop '/' path)) ∧
    (∀ t : String, path = t ++ "/" →
      jsSplitPop '/' path = "" ∧
      fetch testMode tool configBytes path =
        ⟨400, RespBody.errorJson "Secret name is required"⟩) := by
  have hne : path ≠ "/config.js" := by
    intro h; rw [h] at hpre; exact absurd hpre (by decide)
  have hf : fetch testMode tool configBytes path =
      handleGetSecret testMode tool (some (jsSplitPop '/' path)) := by
    simp [fetch, hne, hpre]
  refine ⟨hf, fun t ht => ?_⟩
  have hpop : jsSplitPop '/' path = "" := by
    rw [ht]; exact jsSplitPop_append_sep t
  exact ⟨hpop, by rw [hf, hpop]; rfl⟩

/-- Witness for C5 at a concrete input: the path `/api/secrets/` with a
trailing slash yields the empty name and the 400 response. -/
theorem c5_witness :
    jsStartsWith "/api/secrets/" "/api/secrets/" = true ∧
    ("/api/secrets/" : String) = "/api/secrets" ++ "/" ∧
    jsSplitPop '/' "/api/secrets/" = "" ∧
    fetch true dummyTool "" "/api/secrets/" =
      ⟨400, RespBody.errorJson "Secret name is required"⟩ := by
  have h := (c5_dispatch_secret_route true dummyTool "" "/api/secrets/"
    (by decide)).2 "/api/secrets" (by decide)
  exact ⟨by decide, by decide, h.1, h.2⟩

/-- C6: every request whose path is neither exactly `/config.js` nor
prefixed by `/api/secrets/` receives 404 with the plain-text body
`Not Found`, rendered exactly as that string. -/
theorem c6_unknown_path_404 (testMode : Bool) (tool : String → CliOutcome)
    (configBytes path : String) (h1 : path ≠ "/config.js")
    (h2 : jsStartsWith path "/api/secrets/" = false) :
    fetch testMode tool configBytes path = ⟨404, RespBody.text "Not Found"⟩ ∧
    (RespBody.text "Not Found").render = "Not Found" := by
  constructor
  · simp [fetch, h1, h2]
  · rfl

/-- Witness for C6 at a concrete input: the path `/nonexistent`. -/
theorem c6_witness :
    ("/nonexistent" : String) ≠ "/config.js" ∧
    jsStartsWith "/nonexistent" "/api/secrets/" = false ∧
    fetch true dummyTool "" "/nonexistent" =
      ⟨404, RespBody.text "Not Found"⟩ :=
  ⟨by decide, by decide,
    (c6_unknown_path_404 true dummyTool "" "/nonexistent"
      (by decide) (by decide)).1⟩

/-- C7: in test mode `getSecret` never fails: every name resolves to a
success, and every name outside the fixed mapping resolves to the empty
string, not to an error. -/
theorem c7_test_mode_never_fails (tool : String → CliOutcome) (name : String) :
    (∃ v, getSecret true tool name = Except.ok v) ∧
    (mockSecrets name = none → getSecret true tool name = Except.ok "") := by
  constructor
  · exact ⟨(mockSecrets name).getD "", rfl⟩
  · intro h; simp [getSecret, h]

/-- Witness for C7 at a concrete input: the unknown name
`unknown-key`. -/
theorem c7_witness :
    mockSecrets "unknown-key" = none ∧
    getSecret true dummyTool "unknown-key" = Except.ok "" :=
  ⟨rfl, (c7_test_mode_never_fails dummyTool "unknown-key").2 rfl⟩

/-- C8: in test mode the response of the secret-request path depends
only on the name, not on the external world (the tool oracle is never
consulted and no state is mutated), so handling the same name twice
yields identical responses: same status and same body. -/
theorem c8_test_mode_idempotent (name : Option String)
    (tool1 tool2 : String → CliOutcome) :
    handleGetSecret true tool1 name = handleGetSecret true tool2 name := by
  cases name with
  | none => rfl
  | some n =>
    by_cases h : n = ""
    · subst h; rfl
    · rw [handleGetSecret_some true tool1 n h,
        handleGetSecret_some true tool2 n h]
      rfl

/-- C9: with the test-mode flag the startup authenticator is a no-op
success that logs the skip notice and the server proceeds to listen;
without it a successful login logs success and the server listens,
while a failed login exits the process with status 1 (non-zero), and an
exited process never listens, so no request is ever served. -/
theorem c9_startup_authentication (login : LoginResult) (e : Thrown) :
    authenticateProtonPass true login =
      AuthOutcome.skipped "Test mode: Skipping Proton Pass authentication" ∧
    startServer true login = ServerOutcome.listening ∧
    authenticateProtonPass false LoginResult.ok =
      AuthOutcome.authenticated "Authenticated with Proton Pass" ∧
    authenticateProtonPass false (LoginResult.thrown e) =
      AuthOutcome.exited 1 ∧
    startServer false (LoginResult.thrown e) = ServerOutcome.exited 1 ∧
    (1 : Nat) ≠ 0 ∧
    (∀ code, ServerOutcome.exited code ≠ ServerOutcome.listening) :=
  ⟨rfl, rfl, rfl, rfl, rfl, by decide,
    fun _ h => ServerOutcome.noConfusion h⟩

/-- C10: when the gateway fails, the 500 body carries the message of
the thrown `Error` instance, and the fixed string `Unknown error` when
the thrown value is not an `Error` instance; the body renders as a
well-formed JSON error object. -/
theorem c10_error_message_mapping (testMode : Bool)
    (tool : String → CliOutcome) (name m : String) (hname : name ≠ "") :
    (getSecret testMode tool name = Except.error (Thrown.error m) →
      handleGetSecret testMode tool (some name) =
        ⟨500, RespBody.errorJson m⟩) ∧
    (getSecret testMode tool name = Except.error Thrown.nonError →
      handleGetSecret testMode tool (some name) =
        ⟨500, RespBody.errorJson "Unknown error"⟩) ∧
    (RespBody.errorJson "Unknown error").render =
      "\x7b\"error\":\"Unknown error\"\x7d" := by
  have he := handleGetSecret_some testMode tool name hname
  refine ⟨fun hg => ?_, fun hg => ?_, by decide⟩
  · rw [hg] at he; exact he
  · rw [hg] at he; exact he

/-- Witness for C10 at a concrete input: a tool oracle that rejects
with an `Error` whose message is `boom`. -/
theorem c10_witness :
    ("x" : String) ≠ "" ∧
    getSecret false failTool "x" = Except.error (Thrown.error "boom") ∧
    handleGetSecret false failTool (some "x") =
      ⟨500, RespBody.errorJson "boom"⟩ :=
  ⟨by decide, rfl,
    (c10_error_message_mapping false failTool "x" "boom" (by decide)).1 rfl⟩

end SKConfig
